import Mathlib

/-!
Verification of the intake broker's source handler
(`src/intake/catalog/server.py`): the open-access negotiation protocol,
session registry, encoder selection and the chunked streaming pipeline,
shallowly embedded in Lean.
-/

namespace Intake

/-- Opaque open-time parameters forwarded to the source driver. -/
abbrev Params := List (String × String)

/-- One unit of data yielded by a source's iteration. -/
abbrev Chunk := String

/-- Serialized bytes on the wire. -/
abbrev Data := String

/-- Association-list lookup, modelling Python `dict` access
(`key in d`, `d[key]`); a later assignment shadows an earlier one. -/
def lookupAL {α : Type} : List (String × α) → String → Option α
  | [], _ => none
  | (k, v) :: rest, key => if key = k then some v else lookupAL rest key

/-- Result of `Catalog.describe_open(name, **params)`: the keys of the
returned mapping that `ServerSourceHandler.post` reads. `direct_access`
is a string compared against `'forbid'`, `'allow'`, `'force'`. -/
structure OpenDesc where
  direct_access : String
  plugin : String
  args : Params
  description : String

/-- An opened external data source handle, with the attributes and the
iteration primitives `ServerSourceHandler.post` consumes. `dtype_descr`
stands for the already-computed `numpy.dtype(source.dtype).descr`. -/
structure Source where
  datashape : String
  dtype_descr : String
  shape : List Nat
  container : String
  metadata : String
  npartitions : Nat
  chunks : List Chunk
  read_partition : Nat → Chunk

/-- The external catalog, as consumed by the handler. -/
structure Catalog where
  describe_open : String → Params → OpenDesc
  get : String → Params → Source

/-- Modelled from the spec: a format encoder from `serializer.format_registry`
(`serializer.py` is outside the embedded file); it serializes a chunk
according to its container kind. -/
structure FormatEncoder where
  name : String
  encode : Chunk → String → Data

/-- Modelled from the spec: a compressor from
`serializer.compression_registry`; it transforms serialized bytes. -/
structure Compressor where
  name : String
  compress : Data → Data

/-- Modelled from the spec: `serializer.NoneCompressor()`, the identity
(no-op) compressor, named `"none"`. -/
def NoneCompressor : Compressor :=
  { name := "none", compress := fun d => d }

/-- Modelled from the spec: `serializer.ComboSerializer(format, compressor)`
composes one format encoder with one compressor. -/
structure ComboSerializer where
  format_encoder : FormatEncoder
  compressor : Compressor

/-- `ComboSerializer.format_name`. -/
def ComboSerializer.format_name (c : ComboSerializer) : String :=
  c.format_encoder.name

/-- `ComboSerializer.compressor_name`. -/
def ComboSerializer.compressor_name (c : ComboSerializer) : String :=
  c.compressor.name

/-- Modelled from the spec: `ComboSerializer.encode(chunk, container)`:
the format encoder serializes first, then the compressor transforms the
serialized bytes. -/
def ComboSerializer.encode (c : ComboSerializer) (chunk : Chunk)
    (container : String) : Data :=
  c.compressor.compress (c.format_encoder.encode chunk container)

/-- A registry of format encoders keyed by name
(`serializer.format_registry`). -/
abbrev FormatRegistry := List (String × FormatEncoder)

/-- A registry of compressors keyed by name
(`serializer.compression_registry`). -/
abbrev CompressionRegistry := List (String × Compressor)

/-- An error raised inside `post`: either an explicit
`tornado.web.HTTPError(status_code, reason)` or an uncaught Python
`KeyError` from a failed dict access. -/
inductive HandlerError where
  | httpError (status : Nat) (reason : String)
  | keyError (key : String)
deriving DecidableEq

/-- The HTTP status Tornado reports for an error escaping the handler:
an `HTTPError` carries its own status code; any other uncaught exception
(such as `KeyError`) becomes a 500 Internal Server Error. -/
def HandlerError.status : HandlerError → Nat
  | .httpError s _ => s
  | .keyError _ => 500

/-- How a `post` call terminates. -/
inductive Outcome where
  | ok
  | err (e : HandlerError)
deriving DecidableEq

/-- One msgpack message written to the response stream. -/
inductive Message where
  | openProxied (datashape dtype_descr : String) (shape : List Nat)
      (container metadata : String) (npartitions : Nat) (source_id : String)
  | openDirect (plugin : String) (args : Params) (description : String)
  | chunkMsg (format compression container : String) (data : Data)

/-- An observable operation performed against the catalog or a source
handle during one `post` call. -/
inductive SourceOp where
  | get (name : String)
  | discover
  | read_partition (i : Nat)
  | read_chunked
deriving DecidableEq

/-- `ClientState(source_id, source)`: one entry of `OPEN_SOURCES`. -/
structure ClientState where
  source_id : String
  source : Source

/-- The process-wide `OPEN_SOURCES` table mapping a source id to its
`ClientState`. -/
abbrev SessionTable := List (String × ClientState)

/-- A parsed request envelope for the `source` resource, with the
msgpack `.get` defaults already applied (`available_plugins` defaults to
`[]`, `accepted_compression` to `['none']`, `partition` to absent). -/
structure Request where
  action : String
  name : String := ""
  parameters : Params := []
  available_plugins : List String := []
  source_id : String := ""
  accepted_formats : List String := []
  accepted_compression : List String := ["none"]
  partition : Option Nat := none

/-- One step of the `_pick_encoder` loops: `if f in registry:
acc = registry[f]`, keeping the previous accumulator otherwise. -/
def overrideStep {α : Type} (reg : List (String × α)) (acc : Option α)
    (f : String) : Option α :=
  match lookupAL reg f with
  | some e => some e
  | none => acc

/-- The same step with a total (non-optional) accumulator. -/
def overrideStepD {α : Type} (reg : List (String × α)) (acc : α)
    (f : String) : α :=
  match lookupAL reg f with
  | some c => c
  | none => acc

/-- The loop of `ServerSourceHandler._pick_encoder` over
`accepted_formats`: start from `None` and overwrite on every name found
in the registry. -/
def pickFormat (freg : FormatRegistry) (accepted : List String) :
    Option FormatEncoder :=
  accepted.foldl (overrideStep freg) none

/-- The loop of `ServerSourceHandler._pick_encoder` over
`accepted_compression`: start from `NoneCompressor()` and overwrite on
every name found in the registry. -/
def pickCompressor (creg : CompressionRegistry) (accepted : List String) :
    Compressor :=
  accepted.foldl (overrideStepD creg) NoneCompressor

/-- `ServerSourceHandler._pick_encoder(accepted_formats,
accepted_compression, container)`: select the format encoder
(raising `HTTPError(400)` when none matched), select the compressor
(defaulting to `NoneCompressor`), and combine them. The `container`
argument is accepted and unused, as in the source. -/
def pick_encoder (freg : FormatRegistry) (creg : CompressionRegistry)
    (accepted_formats accepted_compression : List String)
    (_container : String) : Except HandlerError ComboSerializer :=
  match pickFormat freg accepted_formats with
  | none => .error (.httpError 400 "Unable to find compatible format")
  | some fe => .ok ⟨fe, pickCompressor creg accepted_compression⟩

/-- Everything observable about one `ServerSourceHandler.post` call: how
it terminated, the `OPEN_SOURCES` table afterwards, the messages written
to the response, and the catalog/source operations performed. -/
structure PostResult where
  outcome : Outcome
  sources : SessionTable
  messages : List Message
  trace : List SourceOp

/-- `ServerSourceHandler.post`, embedded as a function of the registries,
the catalog, the fresh uuid the call would draw (`str(uuid.uuid4())`),
the current `OPEN_SOURCES` table and the parsed request. -/
def post (freg : FormatRegistry) (creg : CompressionRegistry)
    (cat : Catalog) (freshId : String) (sources : SessionTable)
    (req : Request) : PostResult :=
  if req.action = "open" then
    let open_desc := cat.describe_open req.name req.parameters
    let plugin_name := open_desc.plugin
    let client_has_plugin := req.available_plugins.contains plugin_name
    if open_desc.direct_access = "forbid" ∨
        (open_desc.direct_access = "allow" ∧ client_has_plugin = false) then
      let source := cat.get req.name req.parameters
      let source_id := freshId
      { outcome := .ok
        sources := (source_id, ClientState.mk source_id source) :: sources
        messages := [.openProxied source.datashape source.dtype_descr
          source.shape source.container source.metadata source.npartitions
          source_id]
        trace := [.get req.name, .discover] }
    else if open_desc.direct_access = "force" ∧ client_has_plugin = false then
      { outcome := .err (.httpError 400 ("client must have plugin \"" ++
          plugin_name ++ "\" to access source \"" ++ req.name ++ "\""))
        sources := sources
        messages := []
        trace := [] }
    else
      { outcome := .ok
        sources := sources
        messages := [.openDirect plugin_name open_desc.args
          open_desc.description]
        trace := [] }
  else if req.action = "read" then
    match lookupAL sources req.source_id with
    | none =>
        { outcome := .err (.keyError req.source_id)
          sources := sources
          messages := []
          trace := [] }
    | some state =>
        match pick_encoder freg creg req.accepted_formats
            req.accepted_compression state.source.container with
        | .error e =>
            { outcome := .err e
              sources := sources
              messages := []
              trace := [] }
        | .ok enc =>
            let container := state.source.container
            let chunks :=
              match req.partition with
              | some p => [state.source.read_partition p]
              | none => state.source.chunks
            let ops :=
              match req.partition with
              | some p => [SourceOp.read_partition p]
              | none => [SourceOp.read_chunked]
            { outcome := .ok
              sources := sources
              messages := chunks.map (fun chunk =>
                .chunkMsg enc.format_name enc.compressor_name container
                  (enc.encode chunk container))
              trace := ops }
  else
    { outcome := .err (.httpError 400 ("\"" ++ req.action ++
        "\" not a valid source action"))
      sources := sources
      messages := []
      trace := [] }

/-- The three possible client-visible results of an `open` negotiation. -/
inductive NegotiationOutcome where
  | Proxied
  | Rejected
  | Direct
deriving DecidableEq

/-- Classify the observable result of an `open` call: a proxied-open
response, a direct-access descriptor, or a 400 rejection. -/
def classifyOpen (r : PostResult) : Option NegotiationOutcome :=
  match r.outcome, r.messages with
  | .ok, [.openProxied _ _ _ _ _ _ _] => some .Proxied
  | .ok, [.openDirect _ _ _] => some .Direct
  | .err (.httpError 400 _), _ => some .Rejected
  | _, _ => none

/-- The six-case truth table of the spec (§4.1): 3 policies × 2
capability states. -/
def specTruthTable (policy : String) (has_plugin : Bool) :
    NegotiationOutcome :=
  if policy = "forbid" then .Proxied
  else if policy = "allow" then
    (if has_plugin then .Direct else .Proxied)
  else
    (if has_plugin then .Direct else .Rejected)

/-! ### Sample concrete data for witnesses -/

/-- A concrete format encoder used in witnesses. -/
def sampleFormatEncoder : FormatEncoder :=
  { name := "fmt", encode := fun chunk cont => cont ++ ":" ++ chunk }

/-- A concrete source handle used in witnesses. -/
def sampleSource : Source :=
  { datashape := "ds"
    dtype_descr := "float64"
    shape := [2, 3]
    container := "dataframe"
    metadata := "md"
    npartitions := 2
    chunks := ["c0", "c1"]
    read_partition := fun i => "part" ++ toString i }

/-- A concrete catalog whose only entry has the given access policy. -/
def catalogWith (policy : String) : Catalog :=
  { describe_open := fun _ _ =>
      { direct_access := policy
        plugin := "csv"
        args := [("u", "v")]
        description := "a source" }
    get := fun _ _ => sampleSource }

/-- A concrete registered session used in witnesses. -/
def sampleState : ClientState := ClientState.mk "s1" sampleSource

/-- A one-entry session table used in witnesses. -/
def sampleSessions : SessionTable := [("s1", sampleState)]

/-- A one-entry format registry used in witnesses. -/
def freg1 : FormatRegistry := [("fmt", sampleFormatEncoder)]

/-- The combo serializer `pick_encoder` builds from `freg1` with no
matching compression. -/
def sampleCombo : ComboSerializer :=
  ⟨sampleFormatEncoder, NoneCompressor⟩

/-! ### Helper lemmas -/

/-- A fold that overwrites an optional accumulator at every registry hit
returns the last hit, or the initial value when there is none. -/
theorem foldl_override_eq_getLast {α : Type} (reg : List (String × α))
    (l : List String) (init : Option α) :
    l.foldl (overrideStep reg) init =
    (match (l.filterMap (lookupAL reg)).getLast? with
     | some e => some e
     | none => init) := by
  induction l using List.reverseRecOn generalizing init with
  | nil => simp
  | append_singleton l f ih =>
      rw [List.foldl_append, List.filterMap_append]
      cases h : lookupAL reg f with
      | none => simp [overrideStep, h, ih]
      | some e => simp [overrideStep, h, List.getLast?_concat]

/-- The same fold with a total (non-optional) accumulator returns the
last registry hit, or the initial value when there is none. -/
theorem foldl_override_eq_getLastD {α : Type} (reg : List (String × α))
    (l : List String) (init : α) :
    l.foldl (overrideStepD reg) init =
    ((l.filterMap (lookupAL reg)).getLast?).getD init := by
  induction l using List.reverseRecOn generalizing init with
  | nil => simp
  | append_singleton l f ih =>
      rw [List.foldl_append, List.filterMap_append]
      cases h : lookupAL reg f with
      | none => simp [overrideStepD, h, ih]
      | some e => simp [overrideStepD, h, List.getLast?_concat]

/-- C2: `pickFormat` returns the registered format whose name occurs
latest in `accepted_formats` (last match wins); `pickCompressor` applies
the identical rule to `accepted_compression`; in particular, with only
`"a"` and `"c"` registered, `["a", "b", "c"]` selects the encoder
registered under `"c"`, not the one under `"a"`. -/
theorem pick_last_match_wins (freg : FormatRegistry)
    (creg : CompressionRegistry) (fl cl : List String) :
    pickFormat freg fl = (fl.filterMap (lookupAL freg)).getLast? ∧
    pickCompressor creg cl =
      ((cl.filterMap (lookupAL creg)).getLast?).getD NoneCompressor ∧
    (∀ ea ec : FormatEncoder,
      pickFormat [("a", ea), ("c", ec)] ["a", "b", "c"] = some ec) := by
  refine ⟨?_, ?_, ?_⟩
  · rw [pickFormat, foldl_override_eq_getLast]
    cases h : (fl.filterMap (lookupAL freg)).getLast? <;> simp [h]
  · rw [pickCompressor, foldl_override_eq_getLastD]
  · intro ea ec
    rfl

/-- C1: for every access policy in {forbid, allow, force} and every
client capability state, an `open` request produces exactly the outcome
of the six-case truth table: Proxied for forbid (regardless of
capability) and for allow-without-plugin; Rejected for
force-without-plugin; Direct for force-with-plugin and
allow-with-plugin. -/
theorem negotiation_truth_table (freg : FormatRegistry)
    (creg : CompressionRegistry) (cat : Catalog) (freshId : String)
    (sources : SessionTable) (req : Request)
    (hact : req.action = "open")
    (hpol : (cat.describe_open req.name req.parameters).direct_access = "forbid" ∨
        (cat.describe_open req.name req.parameters).direct_access = "allow" ∨
        (cat.describe_open req.name req.parameters).direct_access = "force") :
    classifyOpen (post freg creg cat freshId sources req) =
      some (specTruthTable
        (cat.describe_open req.name req.parameters).direct_access
        (req.available_plugins.contains
          (cat.describe_open req.name req.parameters).plugin)) := by
  by_cases hhas : (cat.describe_open req.name req.parameters).plugin ∈
      req.available_plugins <;>
    rcases hpol with h | h | h <;>
    simp [post, classifyOpen, specTruthTable, hact, h, hhas]

/-- Witness for C1 at a concrete input: a `forbid` entry opened by a
client without the plugin is Proxied. -/
theorem negotiation_truth_table_witness :
    classifyOpen (post [] [] (catalogWith "forbid") "id0" []
      { action := "open", name := "w" }) =
      some (specTruthTable "forbid" false) := by
  have h := negotiation_truth_table [] [] (catalogWith "forbid") "id0" []
    { action := "open", name := "w" } rfl (Or.inl rfl)
  simpa [catalogWith] using h

/-- C3 counterexample: a `read` request whose `source_id` was never
registered makes `post` raise a Python `KeyError`, which Tornado
surfaces with HTTP status 500 — a server-class error, not the 400
client error the claim states. -/
theorem unknown_source_counterexample :
    (post [] [] (catalogWith "allow") "id0" []
      { action := "read", source_id := "ghost" }).outcome =
      .err (.keyError "ghost") ∧
    (HandlerError.keyError "ghost").status = 500 ∧
    (HandlerError.keyError "ghost").status ≠ 400 := by
  exact ⟨rfl, rfl, by decide⟩

/-- C3 (amended): a `read` request for an unknown `source_id` fails hard
(no silent default, no messages written, no source touched, registry
unchanged) with an uncaught `KeyError` naming the id, which surfaces as
HTTP status 500 rather than a 400 client error. -/
theorem unknown_source_key_error (freg : FormatRegistry)
    (creg : CompressionRegistry) (cat : Catalog) (freshId : String)
    (sources : SessionTable) (req : Request)
    (hact : req.action = "read")
    (hmiss : lookupAL sources req.source_id = none) :
    post freg creg cat freshId sources req =
      { outcome := .err (.keyError req.source_id)
        sources := sources
        messages := []
        trace := [] } ∧
    (HandlerError.keyError req.source_id).status = 500 := by
  refine ⟨?_, rfl⟩
  simp [post, hact, hmiss]

/-- Witness for C3's amended theorem at a concrete input. -/
theorem unknown_source_key_error_witness :
    post [] [] (catalogWith "allow") "id0" sampleSessions
      { action := "read", source_id := "ghost" } =
      { outcome := .err (.keyError "ghost")
        sources := sampleSessions
        messages := []
        trace := [] } ∧
    (HandlerError.keyError "ghost").status = 500 := by
  exact unknown_source_key_error [] [] (catalogWith "allow") "id0"
    sampleSessions { action := "read", source_id := "ghost" } rfl rfl

/-- C4: when no accepted format is registered, encoder selection fails
with the 400 error naming that no compatible format exists; when no
accepted compression is registered, selection does not fail and the
identity (no-op) compressor is used. -/
theorem no_format_fails_no_compression_defaults (freg : FormatRegistry)
    (creg : CompressionRegistry) (fl cl : List String)
    (container : String) :
    ((∀ f ∈ fl, lookupAL freg f = none) →
      pick_encoder freg creg fl cl container =
        .error (.httpError 400 "Unable to find compatible format")) ∧
    ((∀ c ∈ cl, lookupAL creg c = none) →
      ∀ enc, pick_encoder freg creg fl cl container = .ok enc →
        enc.compressor = NoneCompressor) := by
  constructor
  · intro hall
    have hnil : fl.filterMap (lookupAL freg) = [] :=
      List.filterMap_eq_nil_iff.2 hall
    have hpf : pickFormat freg fl = none := by
      rw [pickFormat, foldl_override_eq_getLast, hnil]
      rfl
    simp [pick_encoder, hpf]
  · intro hall enc henc
    have hnil : cl.filterMap (lookupAL creg) = [] :=
      List.filterMap_eq_nil_iff.2 hall
    have hpc : pickCompressor creg cl = NoneCompressor := by
      rw [pickCompressor, foldl_override_eq_getLastD, hnil]
      rfl
    rw [pick_encoder] at henc
    cases hpf : pickFormat freg fl with
    | none => rw [hpf] at henc; cases henc
    | some fe =>
        rw [hpf] at henc
        cases henc
        exact hpc

/-- Witness for C4 at concrete inputs: an unregistered format fails
with the 400 error; an unmatched compression list yields the identity
compressor. -/
theorem no_format_fails_no_compression_defaults_witness :
    pick_encoder [] [] ["x"] [] "c" =
      .error (.httpError 400 "Unable to find compatible format") ∧
    sampleCombo.compressor = NoneCompressor := by
  constructor
  · exact (no_format_fails_no_compression_defaults [] [] ["x"] [] "c").1
      (fun f _ => rfl)
  · exact (no_format_fails_no_compression_defaults freg1 [] ["fmt"] ["z"]
      "c").2 (fun c _ => rfl) sampleCombo rfl

/-- The format tag a framed chunk message carries, if it is one. -/
def Message.formatTag : Message → Option String
  | .chunkMsg f _ _ _ => some f
  | _ => none

/-- The compression tag a framed chunk message carries, if it is one. -/
def Message.compressionTag : Message → Option String
  | .chunkMsg _ c _ _ => some c
  | _ => none

/-- C5: an entry registered in `OPEN_SOURCES` survives any further
`post` call unchanged, as long as the fresh uuid a subsequent `open`
would draw differs from its id: repeated lookups keep returning the
exact same source handle, and no action (including a completed or
failed `read`) removes or replaces it. -/
theorem session_lookup_stable (freg : FormatRegistry)
    (creg : CompressionRegistry) (cat : Catalog) (freshId : String)
    (sources : SessionTable) (req : Request) (sid : String)
    (st : ClientState)
    (hstored : lookupAL sources sid = some st)
    (hfresh : sid ≠ freshId) :
    lookupAL (post freg creg cat freshId sources req).sources sid =
      some st := by
  simp only [post]
  repeat' split
  all_goals simp [lookupAL, hfresh, hstored]

/-- Witness for C5 at a concrete input: the registered session survives
a subsequent proxied `open`. -/
theorem session_lookup_stable_witness :
    lookupAL (post [] [] (catalogWith "allow") "id0" sampleSessions
      { action := "open", name := "w" }).sources "s1" =
      some sampleState := by
  exact session_lookup_stable [] [] (catalogWith "allow") "id0"
    sampleSessions { action := "open", name := "w" } "s1" sampleState rfl
    (by decide)

/-- C6: within one `read` response, the encoder is the single
`ComboSerializer` chosen by `_pick_encoder` before iteration begins, and
every framed message carries that encoder's format name and compression
name. -/
theorem read_stream_uniform_tags (freg : FormatRegistry)
    (creg : CompressionRegistry) (cat : Catalog) (freshId : String)
    (sources : SessionTable) (req : Request) (state : ClientState)
    (enc : ComboSerializer)
    (hact : req.action = "read")
    (hstate : lookupAL sources req.source_id = some state)
    (henc : pick_encoder freg creg req.accepted_formats
        req.accepted_compression state.source.container = .ok enc) :
    ∀ m ∈ (post freg creg cat freshId sources req).messages,
      m.formatTag = some enc.format_name ∧
      m.compressionTag = some enc.compressor_name := by
  intro m hm
  simp [post, hact, hstate, henc] at hm
  rcases hm with ⟨c, _, rfl⟩
  exact ⟨rfl, rfl⟩

/-- Witness for C6 at a concrete input: the first framed message of a
concrete whole-source `read` carries the chosen encoder's tags. -/
theorem read_stream_uniform_tags_witness :
    (Message.chunkMsg "fmt" "none" "dataframe" "dataframe:c0").formatTag =
      some sampleCombo.format_name ∧
    (Message.chunkMsg "fmt" "none" "dataframe"
      "dataframe:c0").compressionTag = some sampleCombo.compressor_name := by
  exact read_stream_uniform_tags freg1 [] (catalogWith "allow") "id0"
    sampleSessions
    { action := "read", source_id := "s1", accepted_formats := ["fmt"] }
    sampleState sampleCombo rfl rfl rfl
    (Message.chunkMsg "fmt" "none" "dataframe" "dataframe:c0")
    (by simp [post, sampleSessions, sampleState, lookupAL, pick_encoder,
      pickFormat, pickCompressor, overrideStep, overrideStepD, lookupAL,
      freg1, sampleSource, sampleCombo, sampleFormatEncoder,
      NoneCompressor, ComboSerializer.format_name,
      ComboSerializer.compressor_name, ComboSerializer.encode])

/-- C7: a `read` request carrying a partition identifier produces
exactly one framed chunk, whose data is the encoding of
`read_partition(p)`, and the source sees a single-partition read, not
the whole-source chunked iteration. -/
theorem read_partition_single_message (freg : FormatRegistry)
    (creg : CompressionRegistry) (cat : Catalog) (freshId : String)
    (sources : SessionTable) (req : Request) (state : ClientState)
    (enc : ComboSerializer) (p : Nat)
    (hact : req.action = "read")
    (hstate : lookupAL sources req.source_id = some state)
    (henc : pick_encoder freg creg req.accepted_formats
        req.accepted_compression state.source.container = .ok enc)
    (hpart : req.partition = some p) :
    (post freg creg cat freshId sources req).messages =
      [.chunkMsg enc.format_name enc.compressor_name
        state.source.container
        (enc.encode (state.source.read_partition p)
          state.source.container)] ∧
    (post freg creg cat freshId sources req).trace =
      [.read_partition p] := by
  constructor <;> simp [post, hact, hstate, henc, hpart]

/-- Witness for C7 at a concrete input: partition 1 of the sample
source yields exactly one framed message. -/
theorem read_partition_single_message_witness :
    (post freg1 [] (catalogWith "allow") "id0" sampleSessions
      { action := "read", source_id := "s1", accepted_formats := ["fmt"],
        partition := some 1 }).messages =
      [.chunkMsg sampleCombo.format_name sampleCombo.compressor_name
        sampleState.source.container
        (sampleCombo.encode (sampleState.source.read_partition 1)
          sampleState.source.container)] ∧
    (post freg1 [] (catalogWith "allow") "id0" sampleSessions
      { action := "read", source_id := "s1", accepted_formats := ["fmt"],
        partition := some 1 }).trace = [.read_partition 1] := by
  exact read_partition_single_message freg1 [] (catalogWith "allow")
    "id0" sampleSessions
    { action := "read", source_id := "s1", accepted_formats := ["fmt"],
      partition := some 1 }
    sampleState sampleCombo 1 rfl rfl rfl rfl

/-- C8: an `open` whose negotiation outcome is Direct (policy force or
allow, client has the plugin) leaves the session registry unchanged,
performs no catalog/source operation (the source is not instantiated),
and answers with exactly the descriptor's plugin name, args and
description. -/
theorem open_direct_no_session (freg : FormatRegistry)
    (creg : CompressionRegistry) (cat : Catalog) (freshId : String)
    (sources : SessionTable) (req : Request)
    (hact : req.action = "open")
    (hpol : (cat.describe_open req.name req.parameters).direct_access = "force" ∨
        (cat.describe_open req.name req.parameters).direct_access = "allow")
    (hhas : (cat.describe_open req.name req.parameters).plugin ∈
        req.available_plugins) :
    post freg creg cat freshId sources req =
      { outcome := .ok
        sources := sources
        messages := [.openDirect
          (cat.describe_open req.name req.parameters).plugin
          (cat.describe_open req.name req.parameters).args
          (cat.describe_open req.name req.parameters).description]
        trace := [] } := by
  rcases hpol with h | h <;> simp [post, hact, h, hhas]

/-- Witness for C8 at a concrete input: a force-with-plugin `open`
returns the direct descriptor and touches nothing. -/
theorem open_direct_no_session_witness :
    post [] [] (catalogWith "force") "id0" sampleSessions
      { action := "open", name := "w", available_plugins := ["csv"] } =
      { outcome := .ok
        sources := sampleSessions
        messages := [.openDirect "csv" [("u", "v")] "a source"]
        trace := [] } := by
  exact open_direct_no_session [] [] (catalogWith "force") "id0"
    sampleSessions
    { action := "open", name := "w", available_plugins := ["csv"] }
    rfl (Or.inl rfl) (by decide)

/-- C9: a `source` request whose action is neither `open` nor `read`
fails immediately with a status-400 client error whose message names
the invalid action value, writing nothing and touching nothing. -/
theorem invalid_action_client_error (freg : FormatRegistry)
    (creg : CompressionRegistry) (cat : Catalog) (freshId : String)
    (sources : SessionTable) (req : Request)
    (hopen : req.action ≠ "open") (hread : req.action ≠ "read") :
    post freg creg cat freshId sources req =
      { outcome := .err (.httpError 400
          ("\"" ++ req.action ++ "\" not a valid source action"))
        sources := sources
        messages := []
        trace := [] } ∧
    (HandlerError.httpError 400
      ("\"" ++ req.action ++ "\" not a valid source action")).status =
      400 := by
  refine ⟨?_, rfl⟩
  simp [post, hopen, hread]

/-- Witness for C9 at a concrete input. -/
theorem invalid_action_client_error_witness :
    post [] [] (catalogWith "allow") "id0" sampleSessions
      { action := "bogus" } =
      { outcome := .err (.httpError 400
          ("\"" ++ "bogus" ++ "\" not a valid source action"))
        sources := sampleSessions
        messages := []
        trace := [] } ∧
    (HandlerError.httpError 400
      ("\"" ++ "bogus" ++ "\" not a valid source action")).status =
      400 := by
  exact invalid_action_client_error [] [] (catalogWith "allow") "id0"
    sampleSessions { action := "bogus" } (by decide) (by decide)

/-- C10: a `read` against a known session with no registered accepted
format fails atomically: the 400 negotiation error is returned with no
framed message written and no source operation performed
(`read_partition` and `read_chunked` are never invoked). -/
theorem read_no_format_atomic_error (freg : FormatRegistry)
    (creg : CompressionRegistry) (cat : Catalog) (freshId : String)
    (sources : SessionTable) (req : Request) (state : ClientState)
    (hact : req.action = "read")
    (hstate : lookupAL sources req.source_id = some state)
    (hnofmt : ∀ f ∈ req.accepted_formats, lookupAL freg f = none) :
    post freg creg cat freshId sources req =
      { outcome := .err (.httpError 400 "Unable to find compatible format")
        sources := sources
        messages := []
        trace := [] } := by
  have hnil : req.accepted_formats.filterMap (lookupAL freg) = [] :=
    List.filterMap_eq_nil_iff.2 hnofmt
  have hpf : pickFormat freg req.accepted_formats = none := by
    rw [pickFormat, foldl_override_eq_getLast, hnil]
    rfl
  have hpe : pick_encoder freg creg req.accepted_formats
      req.accepted_compression state.source.container =
      .error (.httpError 400 "Unable to find compatible format") := by
    rw [pick_encoder, hpf]
  simp [post, hact, hstate, hpe]

/-- Witness for C10 at a concrete input: an empty format registry makes
a known-session `read` fail before touching the source. -/
theorem read_no_format_atomic_error_witness :
    post [] [] (catalogWith "allow") "id0" sampleSessions
      { action := "read", source_id := "s1",
        accepted_formats := ["x"] } =
      { outcome := .err (.httpError 400 "Unable to find compatible format")
        sources := sampleSessions
        messages := []
        trace := [] } := by
  exact read_no_format_atomic_error [] [] (catalogWith "allow") "id0"
    sampleSessions
    { action := "read", source_id := "s1", accepted_formats := ["x"] }
    sampleState rfl rfl (fun f _ => rfl)

end Intake
